import Mathlib

/-!
Shallow embedding of the `s3o` authentication middleware
(`Financial-Times/ft-s3o-go`, file `s3o/s3o.go`) together with the
standard-library behaviour it depends on (`net/http` response-writer
semantics, `encoding/base64`, `net/url.QueryEscape`, `strings.Replace`,
`strings.TrimSuffix`, `crypto/rsa.VerifyPKCS1v15` up to the bignum core).

Conventions of the embedding:
* machine bytes are `Nat` values below 256;
* the RSA/SHA-1 primitives are modelled up to their length checks, with the
  remaining bignum comparison as an abstract boolean oracle carried by the
  verification key;
* the `net/http` response writer is modelled with its real wire semantics:
  the header map is snapshotted at the first `WriteHeader` call, so header
  or cookie mutations performed afterwards never reach the client;
* strings are treated as their character lists (all data relevant to the
  middleware is ASCII).
-/

namespace S3oSpec

/-- First-match lookup in an association list; models `url.Values.Get`,
`http.Request.Cookie` and canonical `http.Header` lookup, all of which
return the first stored value for a key. -/
def lookupFirst (xs : List (String × String)) (k : String) : Option String :=
  match xs with
  | [] => none
  | (a, b) :: t => if a = k then some b else lookupFirst t k

/-- Boolean prefix test on character lists (models `strings.HasPrefix` on
the underlying bytes). -/
def listPrefix : List Char → List Char → Bool
  | [], _ => true
  | _ :: _, [] => false
  | a :: as, b :: bs => if a = b then listPrefix as bs else false

/-- Fuel-indexed worker for `strings.Replace`: scans left to right and
replaces each leftmost, non-overlapping occurrence of `pat`.  The fuel only
serves structural termination; `s.length` units always suffice for a
non-empty pattern. -/
def replaceFuel : Nat → List Char → List Char → List Char → List Char
  | 0, s, _, _ => s
  | fuel + 1, s, pat, rep =>
    match s with
    | [] => []
    | c :: rest =>
      if listPrefix pat (c :: rest) then
        rep ++ replaceFuel fuel ((c :: rest).drop pat.length) pat rep
      else
        c :: replaceFuel fuel rest pat rep

/-- `strings.Replace(s, pat, rep, -1)` for a non-empty pattern: leftmost,
non-overlapping replacement of every occurrence.  (The middleware only ever
passes the non-empty pattern `"username=" + username`; for an empty pattern
the Go routine behaves differently, which this model does not need.) -/
def replaceAllL (s pat rep : List Char) : List Char :=
  if pat = [] then s else replaceFuel s.length s pat rep

/-- `strings.Replace(s, pat, rep, -1)` lifted to `String`. -/
def replaceAll (s pat rep : String) : String :=
  ⟨replaceAllL s.data pat.data rep.data⟩

/-- `strings.TrimSuffix` on character lists. -/
def trimSuffixL (s suf : List Char) : List Char :=
  if listPrefix suf.reverse s.reverse then s.take (s.length - suf.length) else s

/-- `strings.TrimSuffix` lifted to `String`. -/
def trimSuffix (s suf : String) : String :=
  ⟨trimSuffixL s.data suf.data⟩

/-- Prefix test on `String` (used to state facts about URL schemes). -/
def strStartsWith (s p : String) : Bool :=
  listPrefix p.data s.data

/-- Value of a base64 alphabet character (`encoding/base64.StdEncoding`). -/
def b64Val (c : Char) : Option Nat :=
  if 'A' ≤ c ∧ c ≤ 'Z' then some (c.toNat - 65)
  else if 'a' ≤ c ∧ c ≤ 'z' then some (c.toNat - 97 + 26)
  else if '0' ≤ c ∧ c ≤ '9' then some (c.toNat - 48 + 52)
  else if c = '+' then some 62
  else if c = '/' then some 63
  else none

/-- Decode base64 input four characters at a time, with `=` padding allowed
only in the final quantum — the acceptance discipline of
`base64.StdEncoding.DecodeString`. -/
def b64Quanta : List Char → Option (List Nat)
  | [] => some []
  | c1 :: c2 :: c3 :: c4 :: rest =>
    match b64Val c1, b64Val c2 with
    | some v1, some v2 =>
      if c3 = '=' then
        if c4 = '=' ∧ rest = [] then some [v1 * 4 + v2 / 16] else none
      else
        match b64Val c3 with
        | some v3 =>
          if c4 = '=' then
            if rest = [] then some [v1 * 4 + v2 / 16, v2 % 16 * 16 + v3 / 4]
            else none
          else
            match b64Val c4 with
            | some v4 =>
              match b64Quanta rest with
              | some ds =>
                some ((v1 * 4 + v2 / 16) :: (v2 % 16 * 16 + v3 / 4) :: (v3 % 4 * 64 + v4) :: ds)
              | none => none
            | none => none
        | none => none
    | _, _ => none
  | _ => none

/-- `base64.StdEncoding.DecodeString`: carriage returns and newlines are
ignored, everything else must form padded four-character quanta. -/
def base64Decode (s : String) : Option (List Nat) :=
  b64Quanta (s.data.filter (fun c => c ≠ '\r' ∧ c ≠ '\n'))

/-- Upper-case hexadecimal digit, as used by `net/url` escaping. -/
def hexDigit (n : Nat) : Char :=
  if n < 10 then Char.ofNat (48 + n) else Char.ofNat (55 + n)

/-- Escape one character the way `url.QueryEscape` escapes one byte
(ASCII data; the middleware only handles ASCII hosts and paths). -/
def queryEscapeChar (c : Char) : List Char :=
  if c.isAlphanum ∨ c = '-' ∨ c = '_' ∨ c = '.' ∨ c = '~' then [c]
  else if c = ' ' then ['+']
  else ['%', hexDigit (c.toNat / 16), hexDigit (c.toNat % 16)]

/-- `url.QueryEscape` restricted to ASCII input. -/
def queryEscape (s : String) : String :=
  ⟨s.data.flatMap queryEscapeChar⟩

/-- HTML-escape one character as `net/http`'s internal `htmlEscape` does
when building a redirect body. -/
def htmlEscapeChar (c : Char) : List Char :=
  if c = '&' then "&amp;".data
  else if c = '<' then "&lt;".data
  else if c = '>' then "&gt;".data
  else if c = '"' then "&#34;".data
  else if c = '\'' then "&#39;".data
  else [c]

/-- `net/http`'s `htmlEscape` on ASCII data. -/
def htmlEscape (s : String) : String :=
  ⟨s.data.flatMap htmlEscapeChar⟩

/-- `http.StatusText` restricted to the codes this middleware emits. -/
def statusText (code : Nat) : String :=
  if code = 302 then "Found" else if code = 200 then "OK" else ""

/-- An RSA public key as seen by `rsa.VerifyPKCS1v15`: its modulus length
in bytes (`pub.Size()`) and the remaining bignum comparison, kept abstract
as a boolean oracle over (digest, signature). -/
structure PubKey where
  size : Nat
  sigOk : List Nat → List Nat → Bool

/-- `rsa.VerifyPKCS1v15(pub, crypto.SHA1, digest, sig)` up to the bignum
core: the function rejects outright when the digest is not 20 bytes
(`pkcs1v15HashInfo`), when the modulus is too short for the SHA-1
DigestInfo prefix plus padding (`k < tLen+11`, i.e. `k < 46`), or when the
signature length differs from the modulus length (`k != len(sig)`);
otherwise the outcome is the key's bignum comparison. -/
def rsaVerifyPKCS1v15 (k : PubKey) (digest sig : List Nat) : Bool :=
  if digest.length = 20 ∧ 46 ≤ k.size ∧ k.size = sig.length then
    k.sigOk digest sig
  else
    false

/-- The ambient cryptographic state read by `authenticateToken`: the cached
public key (`pubKey`, `nil` when no fetch ever succeeded), the SHA-1
function (abstract; only its 20-byte output length matters to the RSA
layer), and whether the `hash.Write` call reports an error — `crypto/sha1`
never does, but the code checks, so the branch is kept statable. -/
structure CryptoEnv where
  pubKey : Option PubKey
  sha1 : String → List Nat
  hashWriteFails : Bool

/-- `authenticateToken(username, token, hostname)`: returns `none` on
success (Go `(0, nil)`) and `some (status, message)` on failure, in the
source's order: base64-decode the token, hash `username + "-" + hostname`,
check key availability under the read lock, verify the PKCS#1 v1.5
signature. -/
def authenticateToken (env : CryptoEnv) (username token hostname : String) :
    Option (Nat × String) :=
  match base64Decode token with
  | none => some (403, "failed to decode auth token")
  | some sig =>
    if env.hashWriteFails then
      some (500, "failed to hash user")
    else
      match env.pubKey with
      | none => some (403, "public s3o key unavailable")
      | some k =>
        if rsaVerifyPKCS1v15 k (env.sha1 (username ++ "-" ++ hostname)) sig then
          none
        else
          some (403, "failed to authenticate")

/-- The cookie names `cookieUsernameKey` / `cookieTokenKey`. -/
def cookieUsernameKey : String := "s3o_username"

/-- The token cookie name. -/
def cookieTokenKey : String := "s3o_token"

/-- An inbound HTTP request, as the handler observes it after a successful
`ParseForm`: `form` is the merged query/body parameter list, `urlPath` is
`r.URL.Path`, `escapedPath` is `r.URL.EscapedPath()` (equal to `urlPath`
for paths without reserved characters), `headers` carries canonical header
keys, and `tls` records whether `r.TLS` is non-nil. -/
structure Request where
  method : String
  host : String
  urlPath : String
  escapedPath : String
  rawQuery : String
  headers : List (String × String)
  cookies : List (String × String)
  form : List (String × String)
  tls : Bool

/-- A `Set-Cookie` emission, keeping the attributes the middleware sets:
session cookies carry `MaxAge 900000` and `HttpOnly`; deletion cookies
carry an empty value and an `Expires` stamp in the past. -/
structure CookieOut where
  name : String
  value : String
  maxAge : Nat
  httpOnly : Bool
  expiresPast : Bool
  deriving DecidableEq

/-- The `net/http` response writer: a live header map plus a snapshot taken
at the first `WriteHeader` call (Go clones the handler's header map at that
point, so later mutations never reach the wire). -/
structure Writer where
  header : List (String × String)
  cookies : List CookieOut
  flushed : Option (Nat × List (String × String) × List CookieOut)
  body : String

/-- The writer handed to the handler before anything is written. -/
def Writer.empty : Writer :=
  ⟨[], [], none, ""⟩

/-- `w.Header().Add(k, v)`. -/
def headerAdd (w : Writer) (k v : String) : Writer :=
  { w with header := w.header ++ [(k, v)] }

/-- `w.Header().Set(k, v)`: replaces every stored value for the key. -/
def headerSet (w : Writer) (k v : String) : Writer :=
  { w with header := w.header.filter (fun p => p.1 ≠ k) ++ [(k, v)] }

/-- `http.SetCookie(w, c)`. -/
def setCookie (w : Writer) (c : CookieOut) : Writer :=
  { w with cookies := w.cookies ++ [c] }

/-- `w.WriteHeader(code)`: the first call fixes the status and snapshots
the header map and pending cookies; later calls are ignored. -/
def writeHeader (w : Writer) (code : Nat) : Writer :=
  match w.flushed with
  | some _ => w
  | none => { w with flushed := some (code, w.header, w.cookies) }

/-- `w.Write` / `fmt.Fprint(w, s)`: an implicit `WriteHeader(200)` happens
on the first write, then the body grows. -/
def writeBody (w : Writer) (s : String) : Writer :=
  let w := writeHeader w 200
  { w with body := w.body ++ s }

/-- `http.Redirect(w, r, url, code)` for an absolute ASCII target URL: set
`Location`, set an HTML content type and emit the anchor body when the
carried request is a GET without a preset content type. -/
def httpRedirect (w : Writer) (reqMethod url : String) (code : Nat) : Writer :=
  let hadCT := w.header.any (fun p => p.1 = "Content-Type")
  let w := headerSet w "Location" url
  let w :=
    if ¬hadCT ∧ reqMethod = "GET" then
      headerSet w "Content-Type" "text/html; charset=utf-8"
    else
      w
  let w := writeHeader w code
  if ¬hadCT ∧ reqMethod = "GET" then
    writeBody w ("<a href=\"" ++ htmlEscape url ++ "\">" ++ statusText code ++ "</a>.\n\n")
  else
    w

/-- The response actually sent on the wire: the snapshot taken at the first
`WriteHeader` (or the final map with status 200 if the handler never wrote
anything) together with the accumulated body. -/
structure Response where
  status : Nat
  headers : List (String × String)
  cookies : List CookieOut
  body : String

/-- Finalize a writer into the wire response. -/
def wireResponse (w : Writer) : Response :=
  match w.flushed with
  | some (code, hs, cks) => ⟨code, hs, cks, w.body⟩
  | none => ⟨200, w.header, w.cookies, w.body⟩

/-- `r.Form.Get(k)`: first value, or the empty string. -/
def formGet (r : Request) (k : String) : String :=
  (lookupFirst r.form k).getD ""

/-- `r.Cookie(name)` as an option (Go returns `ErrNoCookie` for `none`). -/
def cookieGet (r : Request) (name : String) : Option String :=
  lookupFirst r.cookies name

/-- `r.Header.Get(k)` for a canonical key: first value or empty string. -/
def headerGet (r : Request) (k : String) : String :=
  (lookupFirst r.headers k).getD ""

/-- `isAuthFromCookie(r)`: both session cookies must be present, otherwise
the triple `(false, "", "")` is returned. -/
def isAuthFromCookie (r : Request) : Bool × String × String :=
  match cookieGet r cookieUsernameKey, cookieGet r cookieTokenKey with
  | some usr, some tkn => (true, usr, tkn)
  | some _, none => (false, "", "")
  | none, some _ => (false, "", "")
  | none, none => (false, "", "")

/-- `deleteCookie(w, cookieName, r)`: if the request carries the cookie,
re-emit it with an empty value and an expiry in the past (the cookie
object obtained from the request has no max-age or http-only attributes). -/
def deleteCookie (w : Writer) (cookieName : String) (r : Request) : Writer :=
  match cookieGet r cookieName with
  | none => w
  | some _ => setCookie w ⟨cookieName, "", 0, false, true⟩

/-- `cleanUsernameFromURL(r, username)`: plain-substring removal of
`"username=" + username` from the raw query, `?`-prefixing of a non-empty
remainder, trimming of one trailing `&`, normalisation of the root path to
the empty string, and reassembly with a scheme chosen by `r.TLS`. -/
def cleanUsernameFromURL (r : Request) (username : String) : String :=
  let proto := if r.tls then "https" else "http"
  let query := replaceAll r.rawQuery ("username=" ++ username) ""
  let query := if query ≠ "" then "?" ++ query else query
  let query := trimSuffix query "&"
  let path := if r.escapedPath = "/" then "" else r.escapedPath
  proto ++ "://" ++ r.host ++ path ++ query

/-- The scheme test of the authority-redirect branch:
`r.Header.Get("X-Forwarded-Proto") == "https" || r.Header.Get(":scheme") == "https"`. -/
def forwardedHTTPS (r : Request) : Prop :=
  headerGet r "X-Forwarded-Proto" = "https" ∨ headerGet r ":scheme" = "https"

instance (r : Request) : Decidable (forwardedHTTPS r) := by
  unfold forwardedHTTPS
  infer_instance

/-- The original-request URL rebuilt by the authority-redirect branch. -/
def originalLocation (r : Request) : String :=
  (if forwardedHTTPS r then "https" else "http") ++ "://" ++ r.host ++ r.urlPath ++
    (if r.rawQuery ≠ "" then "?" ++ r.rawQuery else "")

/-- The `Location` target of the authority redirect. -/
def authRedirectURL (r : Request) : String :=
  "https://s3o.ft.com/v2/authenticate/?post=true&redirect=" ++
    queryEscape (originalLocation r) ++ "&host=" ++ queryEscape r.host

/-- The cache-prevention headers added before either redirect. -/
def addCacheHeaders (w : Writer) : Writer :=
  let w := headerAdd w "Cache-Control" "private, no-cache, no-store, must-revalidate"
  let w := headerAdd w "Pragma" "no-cache"
  headerAdd w "Expires" "0"

/-- The wrapped handler produced by `Handler(next)`, evaluated on one
request: returns the final writer state and whether `next.ServeHTTP` was
invoked.  Translates the source line by line; the `ParseForm` error path is
outside the model (the request arrives pre-parsed). -/
def s3oHandler (env : CryptoEnv) (r : Request) : Writer × Bool :=
  let w := Writer.empty
  let user := formGet r "username"
  let token := formGet r "token"
  if r.method = "POST" ∧ user ≠ "" then
    -- authority callback: verify, then (missing `return`) fall through to
    -- cookie issuance and the clean-URL redirect
    let w :=
      match authenticateToken env user token r.host with
      | some (code, msg) => writeBody (writeHeader w code) msg
      | none => w
    let w := setCookie w ⟨cookieUsernameKey, user, 900000, true, false⟩
    let w := setCookie w ⟨cookieTokenKey, token, 900000, true, false⟩
    let cleanURL := cleanUsernameFromURL r user
    let w := addCacheHeaders w
    -- http.NewRequest(MethodGet, cleanURL, nil) feeds a GET into Redirect
    (httpRedirect w "GET" cleanURL 302, false)
  else
    match isAuthFromCookie r with
    | (true, usr, tkn) =>
      match authenticateToken env usr tkn r.host with
      | some (code, msg) =>
        let w := deleteCookie w cookieUsernameKey r
        let w := deleteCookie w cookieTokenKey r
        (writeBody (writeHeader w code) msg, false)
      | none => (w, true)
    | (false, _, _) =>
      let w := addCacheHeaders w
      (httpRedirect w r.method (authRedirectURL r) 302, false)

/-- The wire response of the wrapped handler. -/
def s3oResponse (env : CryptoEnv) (r : Request) : Response :=
  wireResponse (s3oHandler env r).1

/-- Whether the downstream handler was invoked. -/
def nextInvoked (env : CryptoEnv) (r : Request) : Bool :=
  (s3oHandler env r).2

/-- `fetchPubkey()` over an abstract network outcome: `netResp` is `none`
on transport error and otherwise carries the status code and body;
`parseKey` stands for `x509.ParsePKIXPublicKey` on the decoded bytes. -/
def fetchPubkey (netResp : Option (Nat × String))
    (parseKey : List Nat → Option PubKey) : Except String PubKey :=
  match netResp with
  | none => Except.error "failed to read s3o public key"
  | some (status, bodyStr) =>
    if status ≠ 200 then Except.error "failed to read s3o public key"
    else
      match base64Decode bodyStr with
      | none => Except.error "failed to base64 decode s3o public key"
      | some bytes =>
        match parseKey bytes with
        | none => Except.error "failed to parse s3o public key"
        | some k => Except.ok k

/-- The state shared between the refresh loop and request handling: the
cached key and the refresh period, both guarded by the source's RW lock
(the lock's atomicity is modelled by treating each step as an atomic state
transition). -/
structure KeyCacheState where
  pubKey : Option PubKey
  period : Nat

/-- One iteration of `periodicFetchKey`, given the outcome of this tick's
fetch: on failure, log and leave the state alone; on success, replace the
cached key.  Returns the new state and the log lines emitted. -/
def periodicFetchStep (st : KeyCacheState) (fetched : Except String PubKey) :
    KeyCacheState × List String :=
  match fetched with
  | Except.error e => (st, ["failed to fetch s3o public key: " ++ e])
  | Except.ok k => ({ st with pubKey := some k }, [])

/-- `SetKeyFetchPeriod(d)`. -/
def setKeyFetchPeriod (st : KeyCacheState) (d : Nat) : KeyCacheState :=
  { st with period := d }

/-- The property the C1 claim asserts to be equivalent to downstream
invocation: the request carries an identity assertion — from the callback
parameters or from the two session cookies — that verifies successfully. -/
def carriesVerifiedAssertion (env : CryptoEnv) (r : Request) : Prop :=
  (r.method = "POST" ∧ formGet r "username" ≠ "" ∧
    authenticateToken env (formGet r "username") (formGet r "token") r.host = none) ∨
  (∃ usr tkn, cookieGet r cookieUsernameKey = some usr ∧
    cookieGet r cookieTokenKey = some tkn ∧
    authenticateToken env usr tkn r.host = none)

/-- The concrete environment of the C2 evaluation: no key ever fetched. -/
def c2Env : CryptoEnv :=
  ⟨none, fun _ => List.replicate 20 0, false⟩

/-- The concrete C2 request: an authority callback with a well-formed
base64 token, arriving while no key is cached. -/
def c2Req : Request :=
  ⟨"POST", "example.com", "/", "/", "username=bob", [], [],
    [("username", "bob"), ("token", "AAAA")], false⟩

theorem data_append (a b : String) : (a ++ b).data = a.data ++ b.data := by
  cases a
  cases b
  rfl

theorem listPrefix_append_self (p t : List Char) : listPrefix p (p ++ t) = true := by
  induction p with
  | nil => rfl
  | cons a as ih => simp [listPrefix, ih]

theorem rsaVerify_nil (k : PubKey) (d : List Nat) : rsaVerifyPKCS1v15 k d [] = false := by
  unfold rsaVerifyPKCS1v15
  split
  · next h =>
    exfalso
    obtain ⟨-, h46, h0⟩ := h
    simp at h0
    omega
  · rfl

theorem replaceFuel_nil (fuel : Nat) (pat rep : List Char) :
    replaceFuel fuel [] pat rep = [] := by
  cases fuel <;> rfl

theorem replaceFuel_tail (pat : List Char) (hne : pat ≠ []) :
    ∀ (pre : List Char) (fuel : Nat), (pre ++ pat).length ≤ fuel →
      (∀ i, i < pre.length → listPrefix pat ((pre ++ pat).drop i) = false) →
      replaceFuel fuel (pre ++ pat) pat [] = pre := by
  intro pre
  induction pre with
  | nil =>
    intro fuel hfuel hocc
    cases fuel with
    | zero =>
      exfalso
      have : 0 < pat.length := List.length_pos.mpr hne
      simp only [List.nil_append] at hfuel
      omega
    | succ f =>
      cases hp : pat with
      | nil => exact absurd hp hne
      | cons c cs =>
        subst hp
        have hpre : listPrefix (c :: cs) (c :: cs) = true := by
          have := listPrefix_append_self (c :: cs) []
          simpa using this
        simp only [List.nil_append, replaceFuel, hpre, if_true]
        simp [List.drop_length, replaceFuel_nil]
  | cons a pre ih =>
    intro fuel hfuel hocc
    cases fuel with
    | zero =>
      exfalso
      simp at hfuel
    | succ f =>
      have h0 : listPrefix pat (a :: (pre ++ pat)) = false := by
        have := hocc 0 (by simp)
        simpa using this
      simp only [List.cons_append, replaceFuel, h0, Bool.false_eq_true, if_false]
      congr 1
      refine ih f ?_ ?_
      · simp at hfuel ⊢
        omega
      · intro i hi
        have := hocc (i + 1) (by simp; omega)
        simpa using this

theorem strStartsWith_https (x : String) :
    strStartsWith ("https" ++ "://" ++ x) "https://" = true := by
  unfold strStartsWith
  have hd : ("https" ++ "://" ++ x).data =
      'h' :: 't' :: 't' :: 'p' :: 's' :: ':' :: '/' :: '/' :: x.data := by
    rw [data_append, data_append]
    rfl
  rw [hd]
  show listPrefix ['h', 't', 't', 'p', 's', ':', '/', '/'] _ = true
  simp [listPrefix]

theorem strStartsWith_http_not_https (x : String) :
    strStartsWith ("http" ++ "://" ++ x) "https://" = false := by
  unfold strStartsWith
  have hd : ("http" ++ "://" ++ x).data =
      'h' :: 't' :: 't' :: 'p' :: ':' :: '/' :: '/' :: x.data := by
    rw [data_append, data_append]
    rfl
  rw [hd]
  show listPrefix ['h', 't', 't', 'p', 's', ':', '/', '/'] _ = false
  simp [listPrefix]

theorem strStartsWith_http (x : String) :
    strStartsWith ("http" ++ "://" ++ x) "http://" = true := by
  unfold strStartsWith
  have hd : ("http" ++ "://" ++ x).data =
      'h' :: 't' :: 't' :: 'p' :: ':' :: '/' :: '/' :: x.data := by
    rw [data_append, data_append]
    rfl
  rw [hd]
  show listPrefix ['h', 't', 't', 'p', ':', '/', '/'] _ = true
  simp [listPrefix]

/-- C9: the clean callback URL ignores the request headers entirely, and
its scheme is https exactly when the request arrived over direct TLS;
without TLS the URL always starts with http, even behind a
TLS-terminating proxy that sets X-Forwarded-Proto. -/
theorem c9_clean_scheme :
    (∀ (r : Request) (u : String) (hs : List (String × String)),
      cleanUsernameFromURL { r with headers := hs } u = cleanUsernameFromURL r u) ∧
    (∀ (r : Request) (u : String),
      strStartsWith (cleanUsernameFromURL r u) "https://" = r.tls) ∧
    (∀ (r : Request) (u : String), r.tls = false →
      strStartsWith (cleanUsernameFromURL r u) "http://" = true) := by
  refine ⟨fun r u hs => rfl, fun r u => ?_, fun r u htls => ?_⟩
  · cases htls : r.tls with
    | true =>
      simp only [cleanUsernameFromURL, htls, if_true]
      exact strStartsWith_https _
    | false =>
      simp only [cleanUsernameFromURL, htls, if_false]
      exact strStartsWith_http_not_https _
  · simp only [cleanUsernameFromURL, htls, if_false]
    exact strStartsWith_http _

theorem string_mk_ne_empty (l : List Char) (h : l ≠ []) : (⟨l⟩ : String) ≠ "" := by
  intro hcon
  apply h
  have : (⟨l⟩ : String).data = ("" : String).data := by rw [hcon]
  simpa using this

theorem trimSuffixL_amp (l : List Char) :
    trimSuffixL (l ++ ['&']) ['&'] = l := by
  unfold trimSuffixL
  have h1 : listPrefix (['&'] : List Char).reverse (l ++ ['&']).reverse = true := by
    simp [List.reverse_append, listPrefix]
  rw [h1]
  simp [List.take_left]

theorem replaceAll_only_tail (s base u : String)
    (hs : s.data = (base.data ++ ['&']) ++ ("username=" ++ u).data)
    (hocc : ∀ i, i < base.data.length + 1 →
      listPrefix ("username=" ++ u).data (s.data.drop i) = false) :
    replaceAll s ("username=" ++ u) "" = ⟨base.data ++ ['&']⟩ := by
  have hpne : ("username=" ++ u).data ≠ [] := by
    rw [data_append]
    simp
  unfold replaceAll replaceAllL
  rw [if_neg hpne]
  refine congrArg String.mk ?_
  rw [hs]
  refine replaceFuel_tail _ hpne (base.data ++ ['&']) _ (le_refl _) ?_
  intro i hi
  have hlen : (base.data ++ ['&']).length = base.data.length + 1 := by simp
  have := hocc i (by omega)
  rw [hs] at this
  exact this

theorem string_append_empty (s : String) : s ++ "" = s := by
  cases s with
  | mk l =>
    refine congrArg String.mk ?_
    show l ++ [] = l
    simp

/-- C7 (amended): when username=value occurs precisely once, as the
final &-separated parameter of the raw query (the form appended by the
authority), the routine removes it together with the dangling separator,
preserves the preceding query verbatim, normalises the root path to empty,
and reassembles scheme://host path[?query]; the removal is plain substring
replacement, so the guarantee requires that the pattern does not occur
elsewhere in the query. -/
theorem c7_amended :
    (∀ (r : Request) (u base : String),
      r.rawQuery = (base ++ "&") ++ ("username=" ++ u) →
      (∀ i, i < base.data.length + 1 →
        listPrefix ("username=" ++ u).data (r.rawQuery.data.drop i) = false) →
      cleanUsernameFromURL r u =
        (if r.tls then "https" else "http") ++ "://" ++ r.host ++
          (if r.escapedPath = "/" then "" else r.escapedPath) ++ ("?" ++ base)) ∧
    (∀ (r : Request) (u : String),
      r.rawQuery = "username=" ++ u →
      cleanUsernameFromURL r u =
        (if r.tls then "https" else "http") ++ "://" ++ r.host ++
          (if r.escapedPath = "/" then "" else r.escapedPath)) := by
  constructor
  · intro r u base hq hocc
    have hs : r.rawQuery.data = (base.data ++ ['&']) ++ ("username=" ++ u).data := by
      rw [hq, data_append, data_append]
    have hrep := replaceAll_only_tail r.rawQuery base u hs hocc
    simp only [cleanUsernameFromURL]
    rw [hrep]
    have hne : (⟨base.data ++ ['&']⟩ : String) ≠ "" :=
      string_mk_ne_empty _ (by simp)
    rw [if_pos hne]
    have hq2 : trimSuffix ("?" ++ (⟨base.data ++ ['&']⟩ : String)) "&" = "?" ++ base := by
      cases base with
      | mk l =>
        show trimSuffix ⟨'?' :: (l ++ ['&'])⟩ ⟨['&']⟩ = ⟨'?' :: l⟩
        unfold trimSuffix
        refine congrArg String.mk ?_
        show trimSuffixL (('?' :: l) ++ ['&']) ['&'] = '?' :: l
        exact trimSuffixL_amp _
    rw [hq2]
  · intro r u hq
    have hs : r.rawQuery.data = ([] ++ ['&']).drop 1 ++ ("username=" ++ u).data := by
      rw [hq]
      rfl
    have hrep : replaceAll r.rawQuery ("username=" ++ u) "" = "" := by
      have hpne : ("username=" ++ u).data ≠ [] := by
        rw [data_append]
        simp
      unfold replaceAll replaceAllL
      rw [if_neg hpne]
      refine congrArg String.mk ?_
      have hs2 : r.rawQuery.data = [] ++ ("username=" ++ u).data := by
        rw [hq]
        rfl
      rw [hs2]
      exact replaceFuel_tail _ hpne [] _ (le_refl _) (by intro i hi; simp at hi)
    simp only [cleanUsernameFromURL]
    rw [hrep]
    have hifs : (if ("" : String) ≠ "" then "?" ++ ("" : String) else ("" : String)) = "" := by
      simp
    rw [hifs]
    have htrim : trimSuffix "" "&" = "" := by
      rfl
    rw [htrim]
    exact string_append_empty _

/-- C7 counterexample: with query xusername=u&username=u and username u,
plain substring replacement turns the unrelated parameter xusername=u into
x, so the routine does not preserve every other query parameter as the
claim states. -/
theorem c7_counterexample :
    cleanUsernameFromURL ⟨"POST", "h", "/p", "/p", "xusername=u&username=u", [], [], [], false⟩ "u" =
      "http://h/p?x" ∧
    ("http://h/p?x" : String) ≠ "http://h/p?xusername=u" := by
  exact ⟨rfl, by decide⟩

/-- C7 witness: the amended statement evaluated on the concrete query
a=1&username=u, yielding http://h/p?a=1. -/
theorem c7_witness :
    ((⟨"POST", "h", "/p", "/p", "a=1&username=u", [], [], [], false⟩ : Request).rawQuery =
      ("a=1" ++ "&") ++ ("username=" ++ "u")) ∧
    cleanUsernameFromURL ⟨"POST", "h", "/p", "/p", "a=1&username=u", [], [], [], false⟩ "u" =
      "http://h/p?a=1" := by
  refine ⟨rfl, ?_⟩
  have h := c7_amended.1 ⟨"POST", "h", "/p", "/p", "a=1&username=u", [], [], [], false⟩ "u" "a=1"
    rfl (by decide)
  exact h.trans rfl

/-- C4: the verifier outcome and order for every (username, token, host)
triple: invalid base64 fails first with 403 and the decode message
regardless of key availability; a digest-write failure (impossible for
crypto/sha1, but checked by the code) yields 500; otherwise a missing key
yields 403 key-unavailable; otherwise a failing PKCS#1 v1.5 check over the
SHA-1 digest of username-host yields 403 failed-to-authenticate; otherwise
the verifier succeeds with no error (and, being a pure function, no side
effects). -/
theorem c4_verifier_order (env : CryptoEnv) (username token hostname : String) :
    (base64Decode token = none →
      authenticateToken env username token hostname =
        some (403, "failed to decode auth token")) ∧
    (∀ sig, base64Decode token = some sig → env.hashWriteFails = true →
      authenticateToken env username token hostname = some (500, "failed to hash user")) ∧
    (∀ sig, base64Decode token = some sig → env.hashWriteFails = false → env.pubKey = none →
      authenticateToken env username token hostname =
        some (403, "public s3o key unavailable")) ∧
    (∀ sig k, base64Decode token = some sig → env.hashWriteFails = false →
      env.pubKey = some k →
      rsaVerifyPKCS1v15 k (env.sha1 (username ++ "-" ++ hostname)) sig = false →
      authenticateToken env username token hostname = some (403, "failed to authenticate")) ∧
    (∀ sig k, base64Decode token = some sig → env.hashWriteFails = false →
      env.pubKey = some k →
      rsaVerifyPKCS1v15 k (env.sha1 (username ++ "-" ++ hostname)) sig = true →
      authenticateToken env username token hostname = none) := by
  refine ⟨?_, ?_, ?_, ?_, ?_⟩ <;> intros <;> simp_all [authenticateToken]

/-- C4 witness: the decode-failure clause at a concrete malformed token
with no key cached. -/
theorem c4_witness :
    base64Decode "%%" = none ∧
    authenticateToken ⟨none, fun _ => [], false⟩ "user" "%%" "host.ft.com" =
      some (403, "failed to decode auth token") := by
  exact ⟨rfl, (c4_verifier_order ⟨none, fun _ => [], false⟩ "user" "%%" "host.ft.com").1 rfl⟩

/-- C8: one refresh-loop iteration leaves the cached key and the period
unchanged on any fetch failure (emitting exactly one log line), replaces
the key atomically on success, never loses an already-cached key, and the
fetch routine maps transport errors, non-200 statuses, base64 failures and
parse failures to errors that stay inside the loop. -/
theorem c8_key_refresh :
    (∀ (st : KeyCacheState) (e : String),
      periodicFetchStep st (Except.error e) =
        (st, ["failed to fetch s3o public key: " ++ e])) ∧
    (∀ (st : KeyCacheState) (k : PubKey),
      periodicFetchStep st (Except.ok k) = ({ st with pubKey := some k }, [])) ∧
    (∀ (st : KeyCacheState) (res : Except String PubKey),
      st.pubKey ≠ none → (periodicFetchStep st res).1.pubKey ≠ none) ∧
    (∀ (st : KeyCacheState) (res : Except String PubKey),
      (periodicFetchStep st res).1.period = st.period) ∧
    (∀ parseKey, fetchPubkey none parseKey = Except.error "failed to read s3o public key") ∧
    (∀ (status : Nat) (bodyStr : String) parseKey, status ≠ 200 →
      fetchPubkey (some (status, bodyStr)) parseKey =
        Except.error "failed to read s3o public key") ∧
    (∀ (bodyStr : String) parseKey, base64Decode bodyStr = none →
      fetchPubkey (some (200, bodyStr)) parseKey =
        Except.error "failed to base64 decode s3o public key") ∧
    (∀ (bodyStr : String) (bs : List Nat) parseKey,
      base64Decode bodyStr = some bs → parseKey bs = none →
      fetchPubkey (some (200, bodyStr)) parseKey =
        Except.error "failed to parse s3o public key") := by
  refine ⟨fun st e => rfl, fun st k => rfl, ?_, ?_, fun p => rfl, ?_, ?_, ?_⟩
  · intro st res h
    cases res <;> simp [periodicFetchStep, h]
  · intro st res
    cases res <;> rfl
  · intro status bodyStr p h
    simp [fetchPubkey, h]
  · intro bodyStr p h
    simp [fetchPubkey, h]
  · intro bodyStr bs p h1 h2
    simp [fetchPubkey, h1, h2]

/-- C8 witness: the non-200 fetch clause at status 500. -/
theorem c8_witness :
    (500 ≠ 200) ∧
    fetchPubkey (some (500, "QQ==")) (fun _ => none) =
      Except.error "failed to read s3o public key" := by
  exact ⟨by decide,
    c8_key_refresh.2.2.2.2.2.1 500 "QQ==" (fun _ => none) (by decide)⟩

/-- C9 witness: with X-Forwarded-Proto https but no direct TLS, the
clean URL still starts with http. -/
theorem c9_witness :
    ((⟨"GET", "example.com", "/x", "/x", "", [("X-Forwarded-Proto", "https")], [], [],
        false⟩ : Request).tls = false) ∧
    strStartsWith
      (cleanUsernameFromURL
        ⟨"GET", "example.com", "/x", "/x", "", [("X-Forwarded-Proto", "https")], [], [], false⟩
        "u")
      "http://" = true := by
  exact ⟨rfl,
    c9_clean_scheme.2.2
      ⟨"GET", "example.com", "/x", "/x", "", [("X-Forwarded-Proto", "https")], [], [], false⟩
      "u" rfl⟩

/-- C1 (amended): the downstream handler is invoked exactly when the
request is not an authority callback (POST with non-empty username), both
session cookies are present, and the cookie assertion verifies against the
cached key; in particular the downstream handler is never invoked without
an identity assertion that verified successfully. -/
theorem c1_amended (env : CryptoEnv) (r : Request) :
    (nextInvoked env r = true ↔
      (¬(r.method = "POST" ∧ formGet r "username" ≠ "") ∧
        ∃ usr tkn, cookieGet r cookieUsernameKey = some usr ∧
          cookieGet r cookieTokenKey = some tkn ∧
          authenticateToken env usr tkn r.host = none)) ∧
    (nextInvoked env r = true → carriesVerifiedAssertion env r) := by
  have hmain : nextInvoked env r = true ↔
      (¬(r.method = "POST" ∧ formGet r "username" ≠ "") ∧
        ∃ usr tkn, cookieGet r cookieUsernameKey = some usr ∧
          cookieGet r cookieTokenKey = some tkn ∧
          authenticateToken env usr tkn r.host = none) := by
    unfold nextInvoked s3oHandler
    by_cases hcb : r.method = "POST" ∧ formGet r "username" ≠ ""
    · simp only [if_pos hcb]
      simp [hcb]
    · simp only [if_neg hcb]
      cases hc1 : cookieGet r cookieUsernameKey with
      | none =>
        simp [isAuthFromCookie, hc1, hcb]
        cases hc2 : cookieGet r cookieTokenKey <;> simp
      | some usr =>
        cases hc2 : cookieGet r cookieTokenKey with
        | none => simp [isAuthFromCookie, hc1, hc2, hcb]
        | some tkn =>
          simp only [isAuthFromCookie, hc1, hc2]
          cases hauth : authenticateToken env usr tkn r.host with
          | none => simp [hcb, hauth]
          | some pair =>
            cases pair with
            | mk code msg => simp [hcb, hauth]
  refine ⟨hmain, fun h => ?_⟩
  right
  exact (hmain.mp h).2

/-- C1 counterexample: on a successful authority callback (POST with a
username and a token whose signature verifies against the cached key) the
request carries a verified identity assertion, yet the downstream handler
is not invoked (the handler redirects instead), so invocation is not
equivalent to the presence of a verified assertion as the claim states. -/
theorem c1_counterexample :
    ¬(nextInvoked
        ⟨some ⟨46, fun _ _ => true⟩, fun _ => List.replicate 20 0, false⟩
        ⟨"POST", "example.com", "/", "/", "username=alice", [], [],
          [("username", "alice"),
           ("token", "AAAAAAAAAAAAAAAAAAAAAAAAAAAAAAAAAAAAAAAAAAAAAAAAAAAAAAAAAAAAAA==")],
          false⟩ = true ↔
      carriesVerifiedAssertion
        ⟨some ⟨46, fun _ _ => true⟩, fun _ => List.replicate 20 0, false⟩
        ⟨"POST", "example.com", "/", "/", "username=alice", [], [],
          [("username", "alice"),
           ("token", "AAAAAAAAAAAAAAAAAAAAAAAAAAAAAAAAAAAAAAAAAAAAAAAAAAAAAAAAAAAAAA==")],
          false⟩) := by
  intro h
  have hfalse : nextInvoked
      ⟨some ⟨46, fun _ _ => true⟩, fun _ => List.replicate 20 0, false⟩
      ⟨"POST", "example.com", "/", "/", "username=alice", [], [],
        [("username", "alice"),
         ("token", "AAAAAAAAAAAAAAAAAAAAAAAAAAAAAAAAAAAAAAAAAAAAAAAAAAAAAAAAAAAAAA==")],
        false⟩ = false := rfl
  have hcarries : carriesVerifiedAssertion
      ⟨some ⟨46, fun _ _ => true⟩, fun _ => List.replicate 20 0, false⟩
      ⟨"POST", "example.com", "/", "/", "username=alice", [], [],
        [("username", "alice"),
         ("token", "AAAAAAAAAAAAAAAAAAAAAAAAAAAAAAAAAAAAAAAAAAAAAAAAAAAAAAAAAAAAAA==")],
        false⟩ := by
    left
    refine ⟨rfl, by decide, rfl⟩
  have := h.mpr hcarries
  rw [hfalse] at this
  exact Bool.false_ne_true this

/-- C5: a request with no callback parameters and no session cookies gets
a 302 whose Location is the authority authenticate endpoint with post=true,
the URL-escaped original location and host, plus the three
cache-prevention headers, without invoking the downstream handler; the
embedded scheme is https exactly when X-Forwarded-Proto or :scheme equals
https. -/
theorem c5_auth_redirect (env : CryptoEnv) (r : Request)
    (hU : formGet r "username" = "")
    (_hT : formGet r "token" = "")
    (hcu : cookieGet r cookieUsernameKey = none)
    (hct : cookieGet r cookieTokenKey = none) :
    (s3oResponse env r).status = 302 ∧
    lookupFirst (s3oResponse env r).headers "Location" = some (authRedirectURL r) ∧
    authRedirectURL r =
      "https://s3o.ft.com/v2/authenticate/?post=true&redirect=" ++
        queryEscape
          ((if forwardedHTTPS r then "https" else "http") ++ "://" ++ r.host ++ r.urlPath ++
            (if r.rawQuery ≠ "" then "?" ++ r.rawQuery else "")) ++
        "&host=" ++ queryEscape r.host ∧
    lookupFirst (s3oResponse env r).headers "Cache-Control" =
      some "private, no-cache, no-store, must-revalidate" ∧
    lookupFirst (s3oResponse env r).headers "Pragma" = some "no-cache" ∧
    lookupFirst (s3oResponse env r).headers "Expires" = some "0" ∧
    nextInvoked env r = false := by
  have hbranch : s3oHandler env r =
      (httpRedirect (addCacheHeaders Writer.empty) r.method (authRedirectURL r) 302, false) := by
    unfold s3oHandler
    have hcb : ¬(r.method = "POST" ∧ formGet r "username" ≠ "") := by
      intro h
      exact h.2 hU
    simp only [if_neg hcb, isAuthFromCookie, hcu, hct]
  refine ⟨?_, ?_, rfl, ?_, ?_, ?_, ?_⟩ <;>
    simp only [s3oResponse, nextInvoked, hbranch] <;>
    (by_cases hm : r.method = "GET" <;>
      simp [httpRedirect, addCacheHeaders, headerAdd, headerSet, Writer.empty, writeHeader,
        writeBody, wireResponse, lookupFirst, List.filter, List.any, hm])

/-- C6: on a non-callback request, the cookie read succeeds only when
both cookies are present; if either is absent the triple is (false, empty,
empty) and the whole handler behaves exactly as if the request carried no
cookies at all. -/
theorem c6_partial_cookies (env : CryptoEnv) (r : Request)
    (hcb : ¬(r.method = "POST" ∧ formGet r "username" ≠ ""))
    (hone : cookieGet r cookieUsernameKey = none ∨ cookieGet r cookieTokenKey = none) :
    isAuthFromCookie r = (false, "", "") ∧
    s3oHandler env r = s3oHandler env { r with cookies := [] } := by
  have hiac : isAuthFromCookie r = (false, "", "") := by
    rcases hone with h | h
    · cases hc : cookieGet r cookieTokenKey <;> simp [isAuthFromCookie, h, hc]
    · cases hc : cookieGet r cookieUsernameKey <;> simp [isAuthFromCookie, h, hc]
  have hcb2 : ¬({ r with cookies := ([] : List (String × String)) }.method = "POST" ∧
      formGet { r with cookies := ([] : List (String × String)) } "username" ≠ "") := hcb
  refine ⟨hiac, ?_⟩
  unfold s3oHandler
  rw [if_neg hcb, if_neg hcb2]
  have hiac2 : isAuthFromCookie { r with cookies := ([] : List (String × String)) } =
      (false, "", "") := rfl
  rw [hiac, hiac2]
  rfl

/-- C6 witness: a request carrying only the username cookie is handled
identically to the cookie-less request. -/
theorem c6_witness :
    (¬((⟨"GET", "example.com", "/hello-world", "/hello-world", "", [],
        [("s3o_username", "u")], [], false⟩ : Request).method = "POST" ∧
      formGet ⟨"GET", "example.com", "/hello-world", "/hello-world", "", [],
        [("s3o_username", "u")], [], false⟩ "username" ≠ "")) ∧
    (cookieGet ⟨"GET", "example.com", "/hello-world", "/hello-world", "", [],
        [("s3o_username", "u")], [], false⟩ cookieTokenKey = none) ∧
    isAuthFromCookie ⟨"GET", "example.com", "/hello-world", "/hello-world", "", [],
      [("s3o_username", "u")], [], false⟩ = (false, "", "") ∧
    s3oHandler ⟨none, fun _ => [], false⟩
        ⟨"GET", "example.com", "/hello-world", "/hello-world", "", [],
          [("s3o_username", "u")], [], false⟩ =
      s3oHandler ⟨none, fun _ => [], false⟩
        { (⟨"GET", "example.com", "/hello-world", "/hello-world", "", [],
            [("s3o_username", "u")], [], false⟩ : Request) with cookies := [] } := by
  refine ⟨by decide, rfl, ?_, ?_⟩
  · exact (c6_partial_cookies ⟨none, fun _ => [], false⟩
      ⟨"GET", "example.com", "/hello-world", "/hello-world", "", [],
        [("s3o_username", "u")], [], false⟩ (by decide) (Or.inr rfl)).1
  · exact (c6_partial_cookies ⟨none, fun _ => [], false⟩
      ⟨"GET", "example.com", "/hello-world", "/hello-world", "", [],
        [("s3o_username", "u")], [], false⟩ (by decide) (Or.inr rfl)).2

/-- C10: a POST whose form contains a non-empty username is treated as
an authority callback even with an empty or absent token; the empty token
decodes to an empty signature, so the request is rejected with 403 (key
unavailable or verification failure), no Location header reaches the wire,
the downstream handler is not invoked, and the cookies on the request are
never consulted. -/
theorem c10_empty_token_callback (env : CryptoEnv) (r : Request)
    (hW : env.hashWriteFails = false)
    (hm : r.method = "POST")
    (hu : formGet r "username" ≠ "")
    (ht : formGet r "token" = "") :
    (authenticateToken env (formGet r "username") "" r.host =
        some (403, "public s3o key unavailable") ∨
      authenticateToken env (formGet r "username") "" r.host =
        some (403, "failed to authenticate")) ∧
    (s3oResponse env r).status = 403 ∧
    lookupFirst (s3oResponse env r).headers "Location" = none ∧
    nextInvoked env r = false ∧
    s3oHandler env r = s3oHandler env { r with cookies := [] } := by
  have hdec : base64Decode "" = some [] := rfl
  have hex : ∃ msg, (msg = "public s3o key unavailable" ∨ msg = "failed to authenticate") ∧
      authenticateToken env (formGet r "username") "" r.host = some (403, msg) := by
    cases hpk : env.pubKey with
    | none =>
      refine ⟨"public s3o key unavailable", Or.inl rfl, ?_⟩
      simp [authenticateToken, hdec, hW, hpk]
    | some k =>
      refine ⟨"failed to authenticate", Or.inr rfl, ?_⟩
      simp [authenticateToken, hdec, hW, hpk, rsaVerify_nil]
  obtain ⟨msg, hmsg, hauth⟩ := hex
  have hcb : r.method = "POST" ∧ formGet r "username" ≠ "" := ⟨hm, hu⟩
  have hb : s3oHandler env r =
      (httpRedirect
        (addCacheHeaders
          (setCookie
            (setCookie (writeBody (writeHeader Writer.empty 403) msg)
              ⟨cookieUsernameKey, formGet r "username", 900000, true, false⟩)
            ⟨cookieTokenKey, formGet r "token", 900000, true, false⟩))
        "GET" (cleanUsernameFromURL r (formGet r "username")) 302, false) := by
    unfold s3oHandler
    rw [if_pos hcb]
    rw [ht, hauth]
  have hb2 : s3oHandler env { r with cookies := ([] : List (String × String)) } =
      s3oHandler env r := by
    unfold s3oHandler
    rw [if_pos hcb]
    rw [if_pos (show ({ r with cookies := ([] : List (String × String)) } : Request).method =
        "POST" ∧ formGet { r with cookies := ([] : List (String × String)) } "username" ≠ ""
      from hcb)]
    rfl
  refine ⟨?_, ?_, ?_, ?_, hb2.symm⟩
  · rcases hmsg with h | h <;> rw [h] at hauth
    · exact Or.inl hauth
    · exact Or.inr hauth
  · simp only [s3oResponse, hb]
    rfl
  · simp only [s3oResponse, hb]
    rfl
  · simp only [nextInvoked, hb]

/-- C10 witness: a concrete POST callback with username bob, no token
parameter and no cached key is rejected with 403 and does not reach the
downstream handler. -/
theorem c10_witness :
    ((⟨none, fun _ => List.replicate 20 0, false⟩ : CryptoEnv).hashWriteFails = false) ∧
    ((⟨"POST", "example.com", "/", "/", "username=bob", [], [],
        [("username", "bob")], false⟩ : Request).method = "POST") ∧
    (formGet ⟨"POST", "example.com", "/", "/", "username=bob", [], [],
        [("username", "bob")], false⟩ "username" ≠ "") ∧
    (formGet ⟨"POST", "example.com", "/", "/", "username=bob", [], [],
        [("username", "bob")], false⟩ "token" = "") ∧
    (s3oResponse ⟨none, fun _ => List.replicate 20 0, false⟩
        ⟨"POST", "example.com", "/", "/", "username=bob", [], [],
          [("username", "bob")], false⟩).status = 403 ∧
    nextInvoked ⟨none, fun _ => List.replicate 20 0, false⟩
        ⟨"POST", "example.com", "/", "/", "username=bob", [], [],
          [("username", "bob")], false⟩ = false := by
  refine ⟨rfl, rfl, by decide, rfl, ?_, ?_⟩
  · exact (c10_empty_token_callback ⟨none, fun _ => List.replicate 20 0, false⟩
      ⟨"POST", "example.com", "/", "/", "username=bob", [], [], [("username", "bob")], false⟩
      rfl rfl (by decide) rfl).2.1
  · exact (c10_empty_token_callback ⟨none, fun _ => List.replicate 20 0, false⟩
      ⟨"POST", "example.com", "/", "/", "username=bob", [], [], [("username", "bob")], false⟩
      rfl rfl (by decide) rfl).2.2.2.1

/-- C3 (amended): when both session cookies are present on a non-callback
request and their values fail verification, both cookies are re-emitted
with empty value and past expiry, the response carries the mapped status
and the error text as body, the downstream handler is not invoked — and no
cache-prevention headers are added on this path. -/
theorem c3_amended (env : CryptoEnv) (r : Request) (usr tkn : String) (code : Nat) (msg : String)
    (hcb : ¬(r.method = "POST" ∧ formGet r "username" ≠ ""))
    (hc1 : cookieGet r cookieUsernameKey = some usr)
    (hc2 : cookieGet r cookieTokenKey = some tkn)
    (hauth : authenticateToken env usr tkn r.host = some (code, msg)) :
    (s3oResponse env r).status = code ∧
    (s3oResponse env r).body = msg ∧
    (s3oResponse env r).cookies =
      [⟨cookieUsernameKey, "", 0, false, true⟩, ⟨cookieTokenKey, "", 0, false, true⟩] ∧
    lookupFirst (s3oResponse env r).headers "Cache-Control" = none ∧
    lookupFirst (s3oResponse env r).headers "Pragma" = none ∧
    lookupFirst (s3oResponse env r).headers "Expires" = none ∧
    nextInvoked env r = false := by
  have hb : s3oHandler env r =
      (writeBody
        (writeHeader
          (setCookie (setCookie Writer.empty ⟨cookieUsernameKey, "", 0, false, true⟩)
            ⟨cookieTokenKey, "", 0, false, true⟩)
          code)
        msg, false) := by
    unfold s3oHandler
    rw [if_neg hcb]
    simp only [isAuthFromCookie, hc1, hc2]
    rw [hauth]
    simp only [deleteCookie, hc1, hc2]
  refine ⟨?_, ?_, ?_, ?_, ?_, ?_, ?_⟩ <;> simp only [s3oResponse, nextInvoked, hb] <;> rfl

/-- C3 counterexample: a request with both session cookies whose values
fail verification (no key cached) is rejected with 403, but the response
carries no Cache-Control header, contradicting the claim that the
invalidation response carries the cache-prevention headers. -/
theorem c3_counterexample :
    cookieGet ⟨"GET", "example.com", "/hello-world", "/hello-world", "", [],
        [("s3o_username", ""), ("s3o_token", "")], [], false⟩ cookieUsernameKey = some "" ∧
    cookieGet ⟨"GET", "example.com", "/hello-world", "/hello-world", "", [],
        [("s3o_username", ""), ("s3o_token", "")], [], false⟩ cookieTokenKey = some "" ∧
    authenticateToken ⟨none, fun _ => List.replicate 20 0, false⟩ "" "" "example.com" =
      some (403, "public s3o key unavailable") ∧
    (s3oResponse ⟨none, fun _ => List.replicate 20 0, false⟩
        ⟨"GET", "example.com", "/hello-world", "/hello-world", "", [],
          [("s3o_username", ""), ("s3o_token", "")], [], false⟩).status = 403 ∧
    lookupFirst
      (s3oResponse ⟨none, fun _ => List.replicate 20 0, false⟩
          ⟨"GET", "example.com", "/hello-world", "/hello-world", "", [],
            [("s3o_username", ""), ("s3o_token", "")], [], false⟩).headers
      "Cache-Control" = none := by
  exact ⟨rfl, rfl, rfl, rfl, rfl⟩

/-- C3 witness: the amended statement evaluated on the concrete request
with both cookies empty and no cached key. -/
theorem c3_witness :
    (¬((⟨"GET", "example.com", "/hello-world", "/hello-world", "", [],
        [("s3o_username", ""), ("s3o_token", "")], [], false⟩ : Request).method = "POST" ∧
      formGet ⟨"GET", "example.com", "/hello-world", "/hello-world", "", [],
        [("s3o_username", ""), ("s3o_token", "")], [], false⟩ "username" ≠ "")) ∧
    (s3oResponse ⟨none, fun _ => List.replicate 20 0, false⟩
        ⟨"GET", "example.com", "/hello-world", "/hello-world", "", [],
          [("s3o_username", ""), ("s3o_token", "")], [], false⟩).body =
      "public s3o key unavailable" ∧
    (s3oResponse ⟨none, fun _ => List.replicate 20 0, false⟩
        ⟨"GET", "example.com", "/hello-world", "/hello-world", "", [],
          [("s3o_username", ""), ("s3o_token", "")], [], false⟩).cookies =
      [⟨cookieUsernameKey, "", 0, false, true⟩, ⟨cookieTokenKey, "", 0, false, true⟩] ∧
    nextInvoked ⟨none, fun _ => List.replicate 20 0, false⟩
      ⟨"GET", "example.com", "/hello-world", "/hello-world", "", [],
        [("s3o_username", ""), ("s3o_token", "")], [], false⟩ = false := by
  have h := c3_amended ⟨none, fun _ => List.replicate 20 0, false⟩
    ⟨"GET", "example.com", "/hello-world", "/hello-world", "", [],
      [("s3o_username", ""), ("s3o_token", "")], [], false⟩
    "" "" 403 "public s3o key unavailable" (by decide) rfl rfl rfl
  exact ⟨by decide, h.2.1, h.2.2.1, h.2.2.2.2.2.2⟩

/-- C2 evaluation at the failing input: a POST callback with username
bob and well-formed token while no key was ever fetched.  The wire
response is 403 with no Set-Cookie (the header map was already flushed),
but the body is the error message followed by an HTML anchor produced by
the fall-through redirect, and the writer still records the attempted
session cookies and Location header: processing did not stop at the
verification failure as the claim (and the spec) require. -/
theorem c2_code_bug_eval :
    (s3oResponse c2Env c2Req).status = 403 ∧
    (s3oResponse c2Env c2Req).headers = [] ∧
    (s3oResponse c2Env c2Req).cookies = [] ∧
    (s3oResponse c2Env c2Req).body =
      "public s3o key unavailable" ++ "<a href=\"http://example.com\">Found</a>.\n\n" ∧
    (s3oResponse c2Env c2Req).body ≠ "public s3o key unavailable" ∧
    (s3oHandler c2Env c2Req).1.cookies =
      [⟨"s3o_username", "bob", 900000, true, false⟩,
       ⟨"s3o_token", "AAAA", 900000, true, false⟩] ∧
    lookupFirst (s3oHandler c2Env c2Req).1.header "Location" = some "http://example.com" ∧
    nextInvoked c2Env c2Req = false := by
  exact ⟨rfl, rfl, rfl, rfl, by decide, rfl, rfl, rfl⟩

/-- C5 witness: scenario A of the spec — GET /hello-world on
example.com over plain transport yields exactly the Location string the
repository test expects. -/
theorem c5_witness :
    (formGet ⟨"GET", "example.com", "/hello-world", "/hello-world", "", [], [], [], false⟩
        "username" = "") ∧
    (formGet ⟨"GET", "example.com", "/hello-world", "/hello-world", "", [], [], [], false⟩
        "token" = "") ∧
    (cookieGet ⟨"GET", "example.com", "/hello-world", "/hello-world", "", [], [], [], false⟩
        cookieUsernameKey = none) ∧
    (cookieGet ⟨"GET", "example.com", "/hello-world", "/hello-world", "", [], [], [], false⟩
        cookieTokenKey = none) ∧
    (s3oResponse ⟨none, fun _ => List.replicate 20 0, false⟩
        ⟨"GET", "example.com", "/hello-world", "/hello-world", "", [], [], [], false⟩).status =
      302 ∧
    lookupFirst
      (s3oResponse ⟨none, fun _ => List.replicate 20 0, false⟩
          ⟨"GET", "example.com", "/hello-world", "/hello-world", "", [], [], [],
            false⟩).headers "Location" =
      some
        ("https://s3o.ft.com/v2/authenticate/?post=true&redirect=http%3A%2F%2Fexample.com%2Fhello-world&host=example.com") := by
  have h := c5_auth_redirect ⟨none, fun _ => List.replicate 20 0, false⟩
    ⟨"GET", "example.com", "/hello-world", "/hello-world", "", [], [], [], false⟩
    rfl rfl rfl rfl
  exact ⟨rfl, rfl, rfl, rfl, h.1, h.2.1⟩

/-- C1 witness: a GET request carrying both session cookies with a
verifying token makes the amended equivalence concrete: the downstream
handler is invoked and the request carries a verified assertion. -/
theorem c1_witness :
    nextInvoked ⟨some ⟨46, fun _ _ => true⟩, fun _ => List.replicate 20 0, false⟩
      ⟨"GET", "example.com", "/x", "/x", "", [],
        [("s3o_username", "alice"),
         ("s3o_token", "AAAAAAAAAAAAAAAAAAAAAAAAAAAAAAAAAAAAAAAAAAAAAAAAAAAAAAAAAAAAAA==")],
        [], false⟩ = true ∧
    carriesVerifiedAssertion ⟨some ⟨46, fun _ _ => true⟩, fun _ => List.replicate 20 0, false⟩
      ⟨"GET", "example.com", "/x", "/x", "", [],
        [("s3o_username", "alice"),
         ("s3o_token", "AAAAAAAAAAAAAAAAAAAAAAAAAAAAAAAAAAAAAAAAAAAAAAAAAAAAAAAAAAAAAA==")],
        [], false⟩ := by
  constructor
  · exact (c1_amended ⟨some ⟨46, fun _ _ => true⟩, fun _ => List.replicate 20 0, false⟩
      ⟨"GET", "example.com", "/x", "/x", "", [],
        [("s3o_username", "alice"),
         ("s3o_token", "AAAAAAAAAAAAAAAAAAAAAAAAAAAAAAAAAAAAAAAAAAAAAAAAAAAAAAAAAAAAAA==")],
        [], false⟩).1.mpr ⟨by decide, "alice",
          "AAAAAAAAAAAAAAAAAAAAAAAAAAAAAAAAAAAAAAAAAAAAAAAAAAAAAAAAAAAAAA==",
          rfl, rfl, rfl⟩
  · exact (c1_amended ⟨some ⟨46, fun _ _ => true⟩, fun _ => List.replicate 20 0, false⟩
      ⟨"GET", "example.com", "/x", "/x", "", [],
        [("s3o_username", "alice"),
         ("s3o_token", "AAAAAAAAAAAAAAAAAAAAAAAAAAAAAAAAAAAAAAAAAAAAAAAAAAAAAAAAAAAAAA==")],
        [], false⟩).2 rfl

end S3oSpec
